import Mathlib

/-!
Verification of the `Customer` value object of `src/customer.py`.

The Python class is shallowly embedded: Python runtime values that can
reach the constructor (and that `json.loads` can produce) are modelled by
`PyVal`; every `raise` site of the source is modelled by a constructor of
`Err`; each method becomes a Lean function returning `Except Err _`.
-/

set_option maxHeartbeats 1000000

/-- Python-level values: the arguments the `Customer` constructor can
receive and the values `json.loads` can produce.  JSON numbers are
restricted to integers in this model (no claim involves fractional
numerals).  Python `bool` is a subclass of `int`; `pyAsInt` accounts
for that below. -/
inductive PyVal : Type where
  | int (n : Int)
  | bool (b : Bool)
  | none
  | str (s : String)
  | list (items : List PyVal)
  | dict (entries : List (String × PyVal))

/-- The distinct failure modes of `customer.py`.  The source raises
`ValueError` with a distinct message at each site; the spec names these
error kinds, and the model keeps one constructor per kind.
`uncaughtTypeError` / `uncaughtKeyError` model a raw Python `TypeError` /
`KeyError` escaping from `in` or indexing on a non-dict value (reachable
only for exotic JSON payloads such as a bare scalar). -/
inductive Err : Type where
  | formatError
  | invalidArgumentError
  | missingFieldError (fields : List String)
  | typeError
  | rangeError
  | emptyValueError
  | tooShortError
  | invalidFormatError
  | malformedNameError
  | uncaughtTypeError
  | uncaughtKeyError
deriving DecidableEq

/-- The ASCII whitespace characters recognised by Python `str.strip()` /
`str.split()` (the model omits the rarer Unicode whitespace). -/
def pyIsSpace (c : Char) : Bool :=
  c = ' ' || c = '\t' || c = '\n' || c = '\r' || c = '\x0b' || c = '\x0c'

/-- Python `str.strip()`: drop leading and trailing whitespace. -/
def pyStrip (s : String) : String :=
  String.mk (((s.data.dropWhile pyIsSpace).reverse.dropWhile pyIsSpace).reverse)

/-- Whitespace-separated tokens of a character list, as Python
`str.split()` with no separator produces them (runs of whitespace
separate tokens; no empty tokens). -/
def wsTokensAux : List Char → List Char → List (List Char)
  | [], acc => if acc.isEmpty then [] else [acc.reverse]
  | c :: cs, acc =>
    if pyIsSpace c then
      if acc.isEmpty then wsTokensAux cs [] else acc.reverse :: wsTokensAux cs []
    else wsTokensAux cs (c :: acc)

/-- Whitespace-separated tokens of a character list (single pass with an
accumulator for the token being read). -/
def wsTokens (l : List Char) : List (List Char) :=
  wsTokensAux l []

/-- Python `str.split()` with no arguments. -/
def pySplitWs (s : String) : List String :=
  (wsTokens s.data).map String.mk

/-- The cleaning step of `__validate_phone`: remove every space,
parenthesis and hyphen (the source's chained `str.replace` calls). -/
def cleanPhone (s : String) : String :=
  String.mk (s.data.filter (fun c => !(c == ' ' || c == '(' || c == ')' || c == '-')))

/-- Python `str.isdigit()` restricted to ASCII: true iff the string is
nonempty and every character is a decimal digit. -/
def pyIsDigitStr (s : String) : Bool :=
  !s.data.isEmpty && s.data.all Char.isDigit

/-- The integer value of a Python object that satisfies
`isinstance(x, int)`: actual ints, and bools (a subclass of `int`,
`True == 1`, `False == 0`).  `Option.none` for every other type. -/
def pyAsInt : PyVal → Option Int
  | .int n => some n
  | .bool b => some (if b then 1 else 0)
  | _ => Option.none

/-- `Customer.__validate_customer_id`: `TypeError` unless
`isinstance(x, int)`, `RangeError` when the value is `<= 0`. -/
def validate_customer_id (v : PyVal) : Except Err Unit :=
  match pyAsInt v with
  | Option.none => .error .typeError
  | some n => if n ≤ 0 then .error .rangeError else .ok ()

/-- `Customer.__validate_string_field`: `TypeError` unless a string,
`EmptyValueError` when the stripped value is empty (Python truthiness of
`value.strip()`), `TooShortError` when the stripped length is below the
minimum.  The field-name argument only feeds the message text in the
source. -/
def validate_string_field (v : PyVal) (_field_name : String) (min_length : Nat) :
    Except Err Unit :=
  match v with
  | .str s =>
    if pyStrip s = "" then .error .emptyValueError
    else if (pyStrip s).length < min_length then .error .tooShortError
    else .ok ()
  | _ => .error .typeError

/-- `Customer.__validate_phone`: `TypeError` unless a string; strip
spaces, parentheses and hyphens; `InvalidFormatError` unless the cleaned
string satisfies `isdigit()` (which is false for the empty string);
`TooShortError` when fewer than 5 digits remain. -/
def validate_phone (v : PyVal) : Except Err Unit :=
  match v with
  | .str s =>
    if !pyIsDigitStr (cleanPhone s) then .error .invalidFormatError
    else if (cleanPhone s).length < 5 then .error .tooShortError
    else .ok ()
  | _ => .error .typeError

/-- `Customer.__validate_contact_person`: the generic string check with
minimum length 2, then `MalformedNameError` when
`value.strip().split()` has fewer than 2 tokens. -/
def validate_contact_person (v : PyVal) : Except Err Unit := do
  validate_string_field v "contact person" 2
  match v with
  | .str s =>
    if (pySplitWs (pyStrip s)).length < 2 then .error .malformedNameError else .ok ()
  | _ => .ok ()

/-- The state of a constructed `Customer` object: the five private
attributes, holding the original Python values that passed validation. -/
structure Customer : Type where
  customer_id : PyVal
  name : PyVal
  address : PyVal
  phone : PyVal
  contact_person : PyVal

/-- `Customer.__validate_and_init`: run the five validators in source
order, then assign all five attributes. -/
def validate_and_init (cid nm ad ph cp : PyVal) : Except Err Customer := do
  validate_customer_id cid
  validate_string_field nm "customer name" 2
  validate_string_field ad "address" 5
  validate_phone ph
  validate_contact_person cp
  .ok (Customer.mk cid nm ad ph cp)

/-- Python `==` between a JSON-produced value and a string (the
element-wise comparison of the membership test `field in data` when
`data` is a list): only equal strings compare equal. -/
def pyEqStr (v : PyVal) (key : String) : Bool :=
  match v with
  | .str t => t == key
  | _ => false

/-- The membership test `key in d` for a Python dict modelled as an
entry list. -/
def hasKey (d : List (String × PyVal)) (key : String) : Bool :=
  d.any (fun kv => kv.1 == key)

/-- Lookup in a Python dict: later entries overwrite earlier ones
(`json.loads` keeps the last duplicate key), so the last match wins. -/
def dictGet (d : List (String × PyVal)) (key : String) : Option PyVal :=
  match d with
  | [] => Option.none
  | kv :: rest =>
    match dictGet rest key with
    | some v => some v
    | Option.none => if kv.1 == key then some kv.2 else Option.none

/-- Substring containment on character lists (Python `needle in hay`
for strings). -/
def isSubstrList (needle : List Char) : List Char → Bool
  | [] => needle.isEmpty
  | c :: t => List.isPrefixOf needle (c :: t) || isSubstrList needle t

/-- The Python membership test `key in data` for an arbitrary value:
dicts test their keys, lists their elements, strings the substring
relation; `in` on any other value raises `TypeError`. -/
def pyContains (data : PyVal) (key : String) : Except Err Bool :=
  match data with
  | .dict d => .ok (hasKey d key)
  | .list vs => .ok (vs.any (fun v => pyEqStr v key))
  | .str s => .ok (isSubstrList key.data s.data)
  | _ => .error .uncaughtTypeError

/-- Python subscription `data[key]` with a string key: only dicts
support it (`KeyError` when the key is absent); any other value raises
`TypeError`. -/
def pyGetItem (data : PyVal) (key : String) : Except Err PyVal :=
  match data with
  | .dict d =>
    match dictGet d key with
    | some v => .ok v
    | Option.none => .error .uncaughtKeyError
  | _ => .error .uncaughtTypeError

/-- The `required_fields` list of `__init_from_dict` and
`__init_from_kwargs`. -/
def requiredFields : List String :=
  ["customer_id", "name", "address", "phone", "contact_person"]

/-- The comprehension `[f for f in required_fields if f not in data]`:
membership tests run left to right and the first raising test aborts. -/
def missingOf (data : PyVal) : List String → Except Err (List String)
  | [] => .ok []
  | f :: fs => do
    let present ← pyContains data f
    let rest ← missingOf data fs
    .ok (if present then rest else f :: rest)

/-- `Customer.__init_from_dict`: collect the missing required fields,
raise `MissingFieldError` naming them when any are absent, otherwise
validate and assign the five looked-up values. -/
def init_from_dict (data : PyVal) : Except Err Customer := do
  let missing ← missingOf data requiredFields
  if missing.isEmpty then do
    let cid ← pyGetItem data "customer_id"
    let nm ← pyGetItem data "name"
    let ad ← pyGetItem data "address"
    let ph ← pyGetItem data "phone"
    let cp ← pyGetItem data "contact_person"
    validate_and_init cid nm ad ph cp
  else .error (.missingFieldError missing)

/-- `Customer.__init_from_kwargs`: the same logic as
`__init_from_dict`, over the keyword-argument dict. -/
def init_from_kwargs (kwargs : List (String × PyVal)) : Except Err Customer := do
  let missing ← missingOf (.dict kwargs) requiredFields
  if missing.isEmpty then do
    let cid ← pyGetItem (.dict kwargs) "customer_id"
    let nm ← pyGetItem (.dict kwargs) "name"
    let ad ← pyGetItem (.dict kwargs) "address"
    let ph ← pyGetItem (.dict kwargs) "phone"
    let cp ← pyGetItem (.dict kwargs) "contact_person"
    validate_and_init cid nm ad ph cp
  else .error (.missingFieldError missing)

/-- JSON insignificant whitespace. -/
def jWs (c : Char) : Bool :=
  c = ' ' || c = '\t' || c = '\n' || c = '\r'

/-- Drop leading JSON whitespace. -/
def jSkip : List Char → List Char
  | [] => []
  | c :: cs => if jWs c then jSkip cs else c :: cs

/-- Value of a hexadecimal digit, for `\u` escapes. -/
def hexDigitVal (c : Char) : Option Nat :=
  if '0' ≤ c ∧ c ≤ '9' then some (c.toNat - 48)
  else if 'a' ≤ c ∧ c ≤ 'f' then some (c.toNat - 87)
  else if 'A' ≤ c ∧ c ≤ 'F' then some (c.toNat - 55)
  else Option.none

/-- The single-character JSON escapes. -/
def decodeEscape (e : Char) : Option Char :=
  match e with
  | '"' => some '"'
  | '\\' => some '\\'
  | '/' => some '/'
  | 'b' => some '\x08'
  | 'f' => some '\x0c'
  | 'n' => some '\n'
  | 'r' => some '\r'
  | 't' => some '\t'
  | _ => Option.none

/-- Body of a JSON string after the opening quote: returns the decoded
characters and the input after the closing quote.  Supports the JSON
escapes; an unknown escape or an unterminated string fails. -/
def jStrBody : List Char → Option (List Char × List Char)
  | [] => Option.none
  | '"' :: cs => some ([], cs)
  | '\\' :: cs =>
    match cs with
    | [] => Option.none
    | 'u' :: cs2 =>
      match cs2 with
      | a :: b :: c :: d :: cs3 =>
        match hexDigitVal a, hexDigitVal b, hexDigitVal c, hexDigitVal d with
        | some ha, some hb, some hc, some hd =>
          (jStrBody cs3).map
            (fun p => (Char.ofNat (((ha * 16 + hb) * 16 + hc) * 16 + hd) :: p.1, p.2))
        | _, _, _, _ => Option.none
      | _ => Option.none
    | e :: cs2 =>
      match decodeEscape e with
      | some c => (jStrBody cs2).map (fun p => (c :: p.1, p.2))
      | Option.none => Option.none
  | c :: cs => (jStrBody cs).map (fun p => (c :: p.1, p.2))

/-- Does a number continue with a fractional or exponent part?  The
model supports integer JSON numbers only (no claim involves fractional
numerals), so such numbers are rejected rather than parsed as floats. -/
def floatFollows : List Char → Bool
  | c :: _ => c = '.' || c = 'e' || c = 'E'
  | [] => false

/-- Decimal value of a digit run. -/
def digitsToNat (l : List Char) : Nat :=
  l.foldl (fun a c => a * 10 + (c.toNat - 48)) 0

/-- A JSON integer after the optional sign: `0` on its own, or a
nonzero-led digit run (the JSON grammar forbids leading zeros, so after
a leading `0` the number ends there). -/
def jNumAfterSign : List Char → Option (Nat × List Char)
  | [] => Option.none
  | c :: rest =>
    if c = '0' then
      if floatFollows rest then Option.none else some (0, rest)
    else if c.isDigit then
      if floatFollows (rest.dropWhile Char.isDigit) then Option.none
      else some (digitsToNat (c :: rest.takeWhile Char.isDigit), rest.dropWhile Char.isDigit)
    else Option.none

/-- A JSON integer with optional leading minus. -/
def jNum : List Char → Option (Int × List Char)
  | '-' :: rest => (jNumAfterSign rest).map (fun p => (-(p.1 : Int), p.2))
  | l => (jNumAfterSign l).map (fun p => ((p.1 : Int), p.2))

mutual

/-- Recursive-descent JSON value; the fuel bounds the recursion depth
and decreases at every call, so a large enough initial fuel never runs
out on the given input. -/
def jVal : Nat → List Char → Option (PyVal × List Char)
  | 0, _ => Option.none
  | fuel + 1, input =>
    match jSkip input with
    | '"' :: cs => (jStrBody cs).map (fun p => (.str (String.mk p.1), p.2))
    | '\x7b' :: cs => jObjStart fuel cs
    | '[' :: cs => jArrStart fuel cs
    | 't' :: 'r' :: 'u' :: 'e' :: cs => some (.bool true, cs)
    | 'f' :: 'a' :: 'l' :: 's' :: 'e' :: cs => some (.bool false, cs)
    | 'n' :: 'u' :: 'l' :: 'l' :: cs => some (.none, cs)
    | l => (jNum l).map (fun p => (.int p.1, p.2))

/-- A JSON object after the opening brace: either immediately closed or
a member list. -/
def jObjStart : Nat → List Char → Option (PyVal × List Char)
  | 0, _ => Option.none
  | fuel + 1, cs =>
    match jSkip cs with
    | '\x7d' :: rest => some (.dict [], rest)
    | l => jMembers fuel l []

/-- The members of a JSON object: `"key" : value` pairs separated by
commas, ended by the closing brace. -/
def jMembers : Nat → List Char → List (String × PyVal) → Option (PyVal × List Char)
  | 0, _, _ => Option.none
  | fuel + 1, cs, acc =>
    match jSkip cs with
    | '"' :: cs2 =>
      match jStrBody cs2 with
      | Option.none => Option.none
      | some (k, cs3) =>
        match jSkip cs3 with
        | ':' :: cs4 =>
          match jVal fuel cs4 with
          | Option.none => Option.none
          | some (v, cs5) =>
            match jSkip cs5 with
            | ',' :: cs6 => jMembers fuel cs6 (acc ++ [(String.mk k, v)])
            | '\x7d' :: cs6 => some (.dict (acc ++ [(String.mk k, v)]), cs6)
            | _ => Option.none
        | _ => Option.none
    | _ => Option.none

/-- A JSON array after the opening bracket: either immediately closed or
an item list. -/
def jArrStart : Nat → List Char → Option (PyVal × List Char)
  | 0, _ => Option.none
  | fuel + 1, cs =>
    match jSkip cs with
    | ']' :: rest => some (.list [], rest)
    | l => jItems fuel l []

/-- The items of a JSON array, separated by commas, ended by the closing
bracket. -/
def jItems : Nat → List Char → List PyVal → Option (PyVal × List Char)
  | 0, _, _ => Option.none
  | fuel + 1, cs, acc =>
    match jVal fuel cs with
    | Option.none => Option.none
    | some (v, cs2) =>
      match jSkip cs2 with
      | ',' :: cs3 => jItems fuel cs3 (acc ++ [v])
      | ']' :: cs3 => some (.list (acc ++ [v]), cs3)
      | _ => Option.none

end

/-- `json.loads`: parse one JSON value and require only whitespace to
follow.  An `Except.error` corresponds to `json.JSONDecodeError`. -/
def jsonLoads (s : String) : Except Unit PyVal :=
  match jVal (4 * (s.length + 4)) s.data with
  | some (v, rest) => if (jSkip rest).isEmpty then .ok v else .error ()
  | Option.none => .error ()

/-- `Customer.__init__`: one positional argument is treated as JSON text
or as a dict (anything else is unsupported); five positional arguments
are the field values in order; otherwise nonempty keyword arguments are
used, and with none the arity is wrong.  Note that keyword arguments
are ignored whenever the positional count is 1 or 5, and that extra
positional arguments are ignored when keyword arguments are present. -/
def customerNew (args : List PyVal) (kwargs : List (String × PyVal)) : Except Err Customer :=
  match args with
  | [arg] =>
    match arg with
    | .str s =>
      match jsonLoads s with
      | .error _ => .error .formatError
      | .ok data => init_from_dict data
    | .dict d => init_from_dict (.dict d)
    | _ => .error .invalidArgumentError
  | [a, b, c, d, e] => validate_and_init a b c d e
  | _ => if kwargs.isEmpty then .error .invalidArgumentError else init_from_kwargs kwargs

/-- `Customer.get_customer_id`. -/
def get_customer_id (c : Customer) : PyVal := c.customer_id

/-- `Customer.get_name`. -/
def get_name (c : Customer) : PyVal := c.name

/-- `Customer.get_address`. -/
def get_address (c : Customer) : PyVal := c.address

/-- `Customer.get_phone`. -/
def get_phone (c : Customer) : PyVal := c.phone

/-- `Customer.get_contact_person`. -/
def get_contact_person (c : Customer) : PyVal := c.contact_person

/-- `Customer.set_customer_id`: validate, then assign. -/
def set_customer_id (c : Customer) (v : PyVal) : Except Err Customer := do
  validate_customer_id v
  .ok (Customer.mk v c.name c.address c.phone c.contact_person)

/-- `Customer.set_name`: validate, then assign. -/
def set_name (c : Customer) (v : PyVal) : Except Err Customer := do
  validate_string_field v "customer name" 2
  .ok (Customer.mk c.customer_id v c.address c.phone c.contact_person)

/-- `Customer.set_address`: validate, then assign. -/
def set_address (c : Customer) (v : PyVal) : Except Err Customer := do
  validate_string_field v "address" 5
  .ok (Customer.mk c.customer_id c.name v c.phone c.contact_person)

/-- `Customer.set_phone`: validate, then assign. -/
def set_phone (c : Customer) (v : PyVal) : Except Err Customer := do
  validate_phone v
  .ok (Customer.mk c.customer_id c.name c.address v c.contact_person)

/-- `Customer.set_contact_person`: validate, then assign. -/
def set_contact_person (c : Customer) (v : PyVal) : Except Err Customer := do
  validate_contact_person v
  .ok (Customer.mk c.customer_id c.name c.address c.phone v)

/-- Python `str()` on the atomic values a validated field can hold.
Containers never pass any field validator, so their rendering (Python
would use the container repr) never reaches `__str__` on a constructed
object; the model returns "" there. -/
def pyStr : PyVal → String
  | .int n => toString n
  | .bool b => if b then "True" else "False"
  | .none => "None"
  | .str s => s
  | .list _ => ""
  | .dict _ => ""

/-- `Customer.__str__`: the fixed f-string template; the address is not
part of it. -/
def customerStr (c : Customer) : String :=
  "Customer: ID=" ++ pyStr c.customer_id ++ ", Name=\x27" ++ pyStr c.name ++
    "\x27, Phone=\x27" ++ pyStr c.phone ++ "\x27, Contact=\x27" ++
    pyStr c.contact_person ++ "\x27"

/-- The object state a caller observes after a setter call: the new
state on success, the unchanged prior state when the validation
exception propagates (the source assigns only after validation). -/
def postState (r : Except Err Customer) (c : Customer) : Customer :=
  match r with
  | .ok c2 => c2
  | .error _ => c

/-- The five-key mapping holding given field values, with the keys in
the order of `required_fields`. -/
def mkFieldDict (cid nm ad ph cp : PyVal) : List (String × PyVal) :=
  [("customer_id", cid), ("name", nm), ("address", ad), ("phone", ph),
   ("contact_person", cp)]

/-- Is an `Except` result a success? -/
def excOk {α : Type} (r : Except Err α) : Bool :=
  match r with
  | .ok _ => true
  | .error _ => false

/-- Decidable validity of a customer state: every stored field passes
its validator. -/
def validCustomerB (c : Customer) : Bool :=
  excOk (validate_customer_id c.customer_id) &&
  excOk (validate_string_field c.name "customer name" 2) &&
  excOk (validate_string_field c.address "address" 5) &&
  excOk (validate_phone c.phone) &&
  excOk (validate_contact_person c.contact_person)

/-- The spec's validity predicate on an observable customer, stated
directly: positive integer id; name of trimmed length at least 2;
address of trimmed length at least 5; phone all digits after cleaning
with at least 5 of them; contact person of trimmed length at least 2
splitting into at least 2 whitespace tokens. -/
def validCustomerProp (c : Customer) : Prop :=
  (∃ n : Int, pyAsInt c.customer_id = some n ∧ 0 < n) ∧
  (∃ s : String, c.name = .str s ∧ 2 ≤ (pyStrip s).length) ∧
  (∃ s : String, c.address = .str s ∧ 5 ≤ (pyStrip s).length) ∧
  (∃ s : String, c.phone = .str s ∧ (cleanPhone s).data.all Char.isDigit = true ∧
    5 ≤ (cleanPhone s).length) ∧
  (∃ s : String, c.contact_person = .str s ∧ 2 ≤ (pyStrip s).length ∧
    2 ≤ (pySplitWs (pyStrip s)).length)

/-! ### Basic lemmas about the embedded operations -/

theorem exc_bind_ok {α β : Type} {x : Except Err α} {f : α → Except Err β} {b : β}
    (h : x >>= f = .ok b) : ∃ a, x = .ok a ∧ f a = .ok b := by
  cases x with
  | ok a => exact ⟨a, rfl, h⟩
  | error e => simp [Bind.bind, Except.bind] at h

theorem exc_bind_congr {α β : Type} {x : Except Err α} {a : α} (f : α → Except Err β)
    (h : x = .ok a) : x >>= f = f a := by
  subst h; rfl

theorem exc_bind_err {α β : Type} {x : Except Err α} {e : Err} (f : α → Except Err β)
    (h : x = .error e) : x >>= f = .error e := by
  subst h; rfl

theorem validate_customer_id_ok_iff (v : PyVal) :
    validate_customer_id v = .ok () ↔ ∃ n : Int, pyAsInt v = some n ∧ 0 < n := by
  unfold validate_customer_id
  cases hv : pyAsInt v with
  | none => simp
  | some n =>
    constructor
    · intro h
      refine ⟨n, rfl, ?_⟩
      by_contra hle
      have hn : n ≤ 0 := by omega
      simp [hn] at h
    · rintro ⟨m, hm, hm2⟩
      cases hm
      have hn : ¬n ≤ 0 := by omega
      simp [hn]

theorem validate_string_field_ok_iff (v : PyVal) (lbl : String) (m : Nat) :
    validate_string_field v lbl m = .ok () ↔
      ∃ s : String, v = .str s ∧ pyStrip s ≠ "" ∧ m ≤ (pyStrip s).length := by
  cases v with
  | str s =>
    unfold validate_string_field
    by_cases h1 : pyStrip s = ""
    · simp [h1]
    · by_cases h2 : (pyStrip s).length < m
      · simp [h1, h2] <;> omega
      · simp [h1, h2] <;> omega
  | int n => simp [validate_string_field]
  | bool b => simp [validate_string_field]
  | none => simp [validate_string_field]
  | list l => simp [validate_string_field]
  | dict d => simp [validate_string_field]

theorem validate_phone_ok_iff (v : PyVal) :
    validate_phone v = .ok () ↔
      ∃ s : String, v = .str s ∧ pyIsDigitStr (cleanPhone s) = true ∧
        5 ≤ (cleanPhone s).length := by
  cases v with
  | str s =>
    unfold validate_phone
    by_cases h1 : pyIsDigitStr (cleanPhone s) = true
    · by_cases h2 : (cleanPhone s).length < 5
      · simp [h1, h2] <;> omega
      · simp [h1, h2] <;> omega
    · simp [h1]
  | int n => simp [validate_phone]
  | bool b => simp [validate_phone]
  | none => simp [validate_phone]
  | list l => simp [validate_phone]
  | dict d => simp [validate_phone]

theorem validate_contact_person_ok_iff (v : PyVal) :
    validate_contact_person v = .ok () ↔
      ∃ s : String, v = .str s ∧ validate_string_field (.str s) "contact person" 2 = .ok () ∧
        2 ≤ (pySplitWs (pyStrip s)).length := by
  cases v with
  | str s =>
    unfold validate_contact_person
    cases hf : validate_string_field (.str s) "contact person" 2 with
    | error e => simp [Bind.bind, Except.bind, hf]
    | ok u =>
      cases u
      simp only [Bind.bind, Except.bind]
      by_cases h2 : (pySplitWs (pyStrip s)).length < 2
      · simp [h2, hf] <;> omega
      · simp [h2, hf] <;> omega
  | int n => simp [validate_contact_person, validate_string_field, Bind.bind, Except.bind]
  | bool b => simp [validate_contact_person, validate_string_field, Bind.bind, Except.bind]
  | none => simp [validate_contact_person, validate_string_field, Bind.bind, Except.bind]
  | list l => simp [validate_contact_person, validate_string_field, Bind.bind, Except.bind]
  | dict d => simp [validate_contact_person, validate_string_field, Bind.bind, Except.bind]

theorem validate_and_init_ok_iff (a b c d e : PyVal) (cust : Customer) :
    validate_and_init a b c d e = .ok cust ↔
      validate_customer_id a = .ok () ∧
      validate_string_field b "customer name" 2 = .ok () ∧
      validate_string_field c "address" 5 = .ok () ∧
      validate_phone d = .ok () ∧
      validate_contact_person e = .ok () ∧
      cust = Customer.mk a b c d e := by
  constructor
  · intro h
    unfold validate_and_init at h
    obtain ⟨u1, h1, h⟩ := exc_bind_ok h
    obtain ⟨u2, h2, h⟩ := exc_bind_ok h
    obtain ⟨u3, h3, h⟩ := exc_bind_ok h
    obtain ⟨u4, h4, h⟩ := exc_bind_ok h
    obtain ⟨u5, h5, h⟩ := exc_bind_ok h
    cases u1; cases u2; cases u3; cases u4; cases u5
    exact ⟨h1, h2, h3, h4, h5, by cases h; rfl⟩
  · rintro ⟨h1, h2, h3, h4, h5, rfl⟩
    unfold validate_and_init
    rw [exc_bind_congr _ h1, exc_bind_congr _ h2, exc_bind_congr _ h3,
      exc_bind_congr _ h4, exc_bind_congr _ h5]

theorem exc_bind_error {α β : Type} {x : Except Err α} {f : α → Except Err β} {e : Err}
    (h : x >>= f = .error e) : x = .error e ∨ ∃ a, x = .ok a ∧ f a = .error e := by
  cases x with
  | ok a => exact .inr ⟨a, rfl, h⟩
  | error e2 =>
    left
    have he : e2 = e := by
      have : (Except.error e2 : Except Err β) = .error e := h
      cases this; rfl
    rw [he]

theorem validCustomerProp_of_validators {a b c d e : PyVal}
    (h1 : validate_customer_id a = .ok ())
    (h2 : validate_string_field b "customer name" 2 = .ok ())
    (h3 : validate_string_field c "address" 5 = .ok ())
    (h4 : validate_phone d = .ok ())
    (h5 : validate_contact_person e = .ok ()) :
    validCustomerProp (Customer.mk a b c d e) := by
  obtain ⟨n, hn, hn0⟩ := (validate_customer_id_ok_iff a).1 h1
  obtain ⟨s2, hs2, _, hs2b⟩ := (validate_string_field_ok_iff b _ 2).1 h2
  obtain ⟨s3, hs3, _, hs3b⟩ := (validate_string_field_ok_iff c _ 5).1 h3
  obtain ⟨s4, hs4, hs4a, hs4b⟩ := (validate_phone_ok_iff d).1 h4
  obtain ⟨s5, hs5, hs5a, hs5b⟩ := (validate_contact_person_ok_iff e).1 h5
  obtain ⟨s5', hs5eq, _, hs5len⟩ := (validate_string_field_ok_iff _ _ 2).1 hs5a
  cases hs5eq
  have hdig : (cleanPhone s4).data.all Char.isDigit = true := by
    rw [List.all_eq_true]
    intro x hx
    simp [pyIsDigitStr] at hs4a
    exact hs4a.2 x hx
  exact ⟨⟨n, hn, hn0⟩, ⟨s2, hs2, hs2b⟩, ⟨s3, hs3, hs3b⟩, ⟨s4, hs4, hdig, hs4b⟩,
    ⟨s5, hs5, hs5len, hs5b⟩⟩

theorem missingOf_dict (d : List (String × PyVal)) (fs : List String) :
    missingOf (.dict d) fs = .ok (fs.filter (fun f => !hasKey d f)) := by
  induction fs with
  | nil => rfl
  | cons f fs ih =>
    simp only [missingOf, pyContains, Bind.bind, Except.bind, ih, List.filter_cons]
    by_cases h : hasKey d f
    · simp [h]
    · simp [h]

theorem init_from_kwargs_eq (kwargs : List (String × PyVal)) :
    init_from_kwargs kwargs = init_from_dict (.dict kwargs) := rfl

theorem init_from_dict_ok {data : PyVal} {cust : Customer}
    (h : init_from_dict data = .ok cust) :
    ∃ a b c d e, validate_and_init a b c d e = .ok cust := by
  unfold init_from_dict at h
  obtain ⟨missing, hm, h⟩ := exc_bind_ok h
  by_cases he : missing.isEmpty
  · simp only [he, if_true] at h
    obtain ⟨a, ha, h⟩ := exc_bind_ok h
    obtain ⟨b, hb, h⟩ := exc_bind_ok h
    obtain ⟨c, hc, h⟩ := exc_bind_ok h
    obtain ⟨d, hd, h⟩ := exc_bind_ok h
    obtain ⟨e, hee, h⟩ := exc_bind_ok h
    exact ⟨a, b, c, d, e, h⟩
  · simp only [he, if_false] at h
    exact absurd h (by simp)

theorem customerNew_other_arm (args : List PyVal) (kwargs : List (String × PyVal))
    (h1 : args.length ≠ 1) (h5 : args.length ≠ 5) :
    customerNew args kwargs =
      (if kwargs.isEmpty then .error .invalidArgumentError else init_from_kwargs kwargs) := by
  rcases args with _ | ⟨a1, _ | ⟨a2, _ | ⟨a3, _ | ⟨a4, _ | ⟨a5, _ | ⟨a6, rest⟩⟩⟩⟩⟩⟩
  · rfl
  · exact absurd rfl h1
  · rfl
  · rfl
  · rfl
  · exact absurd rfl h5
  · rfl

theorem customerNew_ok {args : List PyVal} {kwargs : List (String × PyVal)} {cust : Customer}
    (h : customerNew args kwargs = .ok cust) :
    ∃ a b c d e, validate_and_init a b c d e = .ok cust := by
  by_cases h1 : args.length = 1
  · match args, h1 with
    | [a1], _ =>
      cases a1 with
      | str s =>
        have hred : customerNew [PyVal.str s] kwargs =
            (match jsonLoads s with
             | .error _ => .error .formatError
             | .ok data => init_from_dict data) := rfl
        rw [hred] at h
        cases hj : jsonLoads s with
        | error u => rw [hj] at h; simp at h
        | ok data => rw [hj] at h; exact init_from_dict_ok h
      | dict d =>
        have hred : customerNew [PyVal.dict d] kwargs = init_from_dict (.dict d) := rfl
        rw [hred] at h
        exact init_from_dict_ok h
      | int n =>
        have hred : customerNew [PyVal.int n] kwargs = .error .invalidArgumentError := rfl
        rw [hred] at h; simp at h
      | bool b =>
        have hred : customerNew [PyVal.bool b] kwargs = .error .invalidArgumentError := rfl
        rw [hred] at h; simp at h
      | none =>
        have hred : customerNew [PyVal.none] kwargs = .error .invalidArgumentError := rfl
        rw [hred] at h; simp at h
      | list l =>
        have hred : customerNew [PyVal.list l] kwargs = .error .invalidArgumentError := rfl
        rw [hred] at h; simp at h
  · by_cases h5 : args.length = 5
    · match args, h5 with
      | [a1, a2, a3, a4, a5], _ => exact ⟨a1, a2, a3, a4, a5, h⟩
    · rw [customerNew_other_arm args kwargs h1 h5] at h
      by_cases hk : kwargs.isEmpty
      · simp [hk] at h
      · simp only [hk, if_false] at h
        rw [init_from_kwargs_eq] at h
        exact init_from_dict_ok h

theorem validate_customer_id_ne_format (v : PyVal) :
    validate_customer_id v ≠ .error .formatError := by
  unfold validate_customer_id
  cases pyAsInt v with
  | none => simp
  | some n => dsimp only; split <;> simp

theorem validate_string_field_ne_format (v : PyVal) (lbl : String) (m : Nat) :
    validate_string_field v lbl m ≠ .error .formatError := by
  unfold validate_string_field
  cases v with
  | str s => dsimp only; split_ifs <;> simp
  | int n => simp
  | bool b => simp
  | none => simp
  | list l => simp
  | dict d => simp

theorem validate_phone_ne_format (v : PyVal) :
    validate_phone v ≠ .error .formatError := by
  unfold validate_phone
  cases v with
  | str s => dsimp only; split_ifs <;> simp
  | int n => simp
  | bool b => simp
  | none => simp
  | list l => simp
  | dict d => simp

theorem validate_contact_person_ne_format (v : PyVal) :
    validate_contact_person v ≠ .error .formatError := by
  intro h
  unfold validate_contact_person at h
  rcases exc_bind_error h with h | ⟨u, _, h⟩
  · exact validate_string_field_ne_format v _ 2 h
  · cases v with
    | str s =>
      dsimp only at h
      rcases Nat.lt_or_ge (pySplitWs (pyStrip s)).length 2 with hlt | hge
      · rw [if_pos hlt] at h; simp at h
      · rw [if_neg (by omega)] at h; simp at h
    | int n => simp at h
    | bool b => simp at h
    | none => simp at h
    | list l => simp at h
    | dict d => simp at h

theorem validate_and_init_ne_format (a b c d e : PyVal) :
    validate_and_init a b c d e ≠ .error .formatError := by
  intro h
  unfold validate_and_init at h
  rcases exc_bind_error h with h | ⟨u1, _, h⟩
  · exact validate_customer_id_ne_format a h
  rcases exc_bind_error h with h | ⟨u2, _, h⟩
  · exact validate_string_field_ne_format b _ 2 h
  rcases exc_bind_error h with h | ⟨u3, _, h⟩
  · exact validate_string_field_ne_format c _ 5 h
  rcases exc_bind_error h with h | ⟨u4, _, h⟩
  · exact validate_phone_ne_format d h
  rcases exc_bind_error h with h | ⟨u5, _, h⟩
  · exact validate_contact_person_ne_format e h
  simp at h

theorem pyContains_ne_format (data : PyVal) (key : String) :
    ∀ e, pyContains data key = .error e → e = .uncaughtTypeError := by
  intro e h
  unfold pyContains at h
  cases data <;> simp_all

theorem missingOf_ne_format (data : PyVal) (fs : List String) :
    ∀ e, missingOf data fs = .error e → e = .uncaughtTypeError := by
  induction fs with
  | nil => intro e h; simp [missingOf] at h
  | cons f fs ih =>
    intro e h
    unfold missingOf at h
    rcases exc_bind_error h with h | ⟨p, _, h⟩
    · exact pyContains_ne_format data f e h
    rcases exc_bind_error h with h | ⟨rest, _, h⟩
    · exact ih e h
    simp at h

theorem pyGetItem_ne_format (data : PyVal) (key : String) :
    pyGetItem data key ≠ .error .formatError := by
  unfold pyGetItem
  cases data with
  | dict d => dsimp only; cases dictGet d key <;> simp
  | int n => simp
  | bool b => simp
  | none => simp
  | str s => simp
  | list l => simp

theorem init_from_dict_ne_format (data : PyVal) :
    init_from_dict data ≠ .error .formatError := by
  intro h
  unfold init_from_dict at h
  rcases exc_bind_error h with h | ⟨missing, _, h⟩
  · have := missingOf_ne_format data requiredFields _ h
    simp at this
  by_cases he : missing.isEmpty
  · simp only [he, if_true] at h
    rcases exc_bind_error h with h | ⟨a, _, h⟩
    · exact pyGetItem_ne_format data "customer_id" h
    rcases exc_bind_error h with h | ⟨b, _, h⟩
    · exact pyGetItem_ne_format data "name" h
    rcases exc_bind_error h with h | ⟨c, _, h⟩
    · exact pyGetItem_ne_format data "address" h
    rcases exc_bind_error h with h | ⟨d, _, h⟩
    · exact pyGetItem_ne_format data "phone" h
    rcases exc_bind_error h with h | ⟨e, _, h⟩
    · exact pyGetItem_ne_format data "contact_person" h
    exact validate_and_init_ne_format a b c d e h
  · simp only [he, if_false] at h
    simp at h

theorem init_from_dict_mkFieldDict (a b c d e : PyVal) :
    init_from_dict (.dict (mkFieldDict a b c d e)) = validate_and_init a b c d e := rfl

theorem customerNew_dict_shape (a b c d e : PyVal) (kwargs : List (String × PyVal)) :
    customerNew [.dict (mkFieldDict a b c d e)] kwargs = validate_and_init a b c d e := rfl

theorem customerNew_pos_shape (a b c d e : PyVal) (kwargs : List (String × PyVal)) :
    customerNew [a, b, c, d, e] kwargs = validate_and_init a b c d e := rfl

theorem customerNew_kwargs_shape (a b c d e : PyVal) :
    customerNew [] (mkFieldDict a b c d e) = validate_and_init a b c d e := rfl

theorem customerNew_str_shape (s : String) (kwargs : List (String × PyVal)) :
    customerNew [.str s] kwargs =
      (match jsonLoads s with
       | .error _ => .error .formatError
       | .ok data => init_from_dict data) := rfl

theorem cid_spec_of_ok {v : PyVal} (h : validate_customer_id v = .ok ()) :
    ∃ n : Int, pyAsInt v = some n ∧ 0 < n :=
  (validate_customer_id_ok_iff v).1 h

theorem strfield_spec_of_ok {v : PyVal} {lbl : String} {m : Nat}
    (h : validate_string_field v lbl m = .ok ()) :
    ∃ s : String, v = .str s ∧ m ≤ (pyStrip s).length := by
  obtain ⟨s, hs, _, hlen⟩ := (validate_string_field_ok_iff v lbl m).1 h
  exact ⟨s, hs, hlen⟩

theorem phone_spec_of_ok {v : PyVal} (h : validate_phone v = .ok ()) :
    ∃ s : String, v = .str s ∧ (cleanPhone s).data.all Char.isDigit = true ∧
      5 ≤ (cleanPhone s).length := by
  obtain ⟨s, hs, hdig, hlen⟩ := (validate_phone_ok_iff v).1 h
  refine ⟨s, hs, ?_, hlen⟩
  rw [List.all_eq_true]
  intro x hx
  simp [pyIsDigitStr] at hdig
  exact hdig.2 x hx

theorem contact_spec_of_ok {v : PyVal} (h : validate_contact_person v = .ok ()) :
    ∃ s : String, v = .str s ∧ 2 ≤ (pyStrip s).length ∧
      2 ≤ (pySplitWs (pyStrip s)).length := by
  obtain ⟨s, hs, hsf, htok⟩ := (validate_contact_person_ok_iff v).1 h
  obtain ⟨s2, hs2, _, hlen⟩ := (validate_string_field_ok_iff _ _ 2).1 hsf
  cases hs2
  exact ⟨s, hs, hlen, htok⟩

theorem set_customer_id_ok {c : Customer} {v : PyVal} {c2 : Customer}
    (h : set_customer_id c v = .ok c2) :
    validate_customer_id v = .ok () ∧
      c2 = Customer.mk v c.name c.address c.phone c.contact_person := by
  unfold set_customer_id at h
  obtain ⟨u, hu, h⟩ := exc_bind_ok h
  cases u
  injection h with h
  exact ⟨hu, h.symm⟩

theorem set_name_ok {c : Customer} {v : PyVal} {c2 : Customer}
    (h : set_name c v = .ok c2) :
    validate_string_field v "customer name" 2 = .ok () ∧
      c2 = Customer.mk c.customer_id v c.address c.phone c.contact_person := by
  unfold set_name at h
  obtain ⟨u, hu, h⟩ := exc_bind_ok h
  cases u
  injection h with h
  exact ⟨hu, h.symm⟩

theorem set_address_ok {c : Customer} {v : PyVal} {c2 : Customer}
    (h : set_address c v = .ok c2) :
    validate_string_field v "address" 5 = .ok () ∧
      c2 = Customer.mk c.customer_id c.name v c.phone c.contact_person := by
  unfold set_address at h
  obtain ⟨u, hu, h⟩ := exc_bind_ok h
  cases u
  injection h with h
  exact ⟨hu, h.symm⟩

theorem set_phone_ok {c : Customer} {v : PyVal} {c2 : Customer}
    (h : set_phone c v = .ok c2) :
    validate_phone v = .ok () ∧
      c2 = Customer.mk c.customer_id c.name c.address v c.contact_person := by
  unfold set_phone at h
  obtain ⟨u, hu, h⟩ := exc_bind_ok h
  cases u
  injection h with h
  exact ⟨hu, h.symm⟩

theorem set_contact_person_ok {c : Customer} {v : PyVal} {c2 : Customer}
    (h : set_contact_person c v = .ok c2) :
    validate_contact_person v = .ok () ∧
      c2 = Customer.mk c.customer_id c.name c.address c.phone v := by
  unfold set_contact_person at h
  obtain ⟨u, hu, h⟩ := exc_bind_ok h
  cases u
  injection h with h
  exact ⟨hu, h.symm⟩

/-! ### The claims -/

/-- C1: for every quintuple of valid field values, constructing from
the five-key mapping, from any JSON text that encodes that mapping, from
the five positional arguments in order, and from named parameters for
the five keys all succeed and produce the same object state, whose five
getters return the given values. -/
theorem C1_four_construction_shapes (cid nm ad ph cp : PyVal) (s : String)
    (h1 : validate_customer_id cid = .ok ())
    (h2 : validate_string_field nm "customer name" 2 = .ok ())
    (h3 : validate_string_field ad "address" 5 = .ok ())
    (h4 : validate_phone ph = .ok ())
    (h5 : validate_contact_person cp = .ok ())
    (hs : jsonLoads s = .ok (.dict (mkFieldDict cid nm ad ph cp))) :
    customerNew [.dict (mkFieldDict cid nm ad ph cp)] [] = .ok (Customer.mk cid nm ad ph cp) ∧
    customerNew [.str s] [] = .ok (Customer.mk cid nm ad ph cp) ∧
    customerNew [cid, nm, ad, ph, cp] [] = .ok (Customer.mk cid nm ad ph cp) ∧
    customerNew [] (mkFieldDict cid nm ad ph cp) = .ok (Customer.mk cid nm ad ph cp) ∧
    get_customer_id (Customer.mk cid nm ad ph cp) = cid ∧
    get_name (Customer.mk cid nm ad ph cp) = nm ∧
    get_address (Customer.mk cid nm ad ph cp) = ad ∧
    get_phone (Customer.mk cid nm ad ph cp) = ph ∧
    get_contact_person (Customer.mk cid nm ad ph cp) = cp := by
  have hv : validate_and_init cid nm ad ph cp = .ok (Customer.mk cid nm ad ph cp) :=
    (validate_and_init_ok_iff _ _ _ _ _ _).2 ⟨h1, h2, h3, h4, h5, rfl⟩
  refine ⟨?_, ?_, ?_, ?_, rfl, rfl, rfl, rfl, rfl⟩
  · rw [customerNew_dict_shape]; exact hv
  · rw [customerNew_str_shape, hs]; exact hv
  · rw [customerNew_pos_shape]; exact hv
  · rw [customerNew_kwargs_shape]; exact hv

/-- A concrete valid customer state used by several witnesses. -/
def custW : Customer :=
  Customer.mk (.int 1) (.str "AB") (.str "Addr 5") (.str "12345") (.str "Ivan Ivanov")

/-- The JSON text encoding the witness mapping. -/
def witnessJson : String :=
  "\x7b\"customer_id\": 1, \"name\": \"AB\", \"address\": \"Addr 5\", \"phone\": \"12345\", \"contact_person\": \"Ivan Ivanov\"\x7d"

/-- Witness for C1 at a concrete valid quintuple and its JSON text. -/
theorem C1_four_construction_shapes_witness :
    customerNew
        [.dict (mkFieldDict (.int 1) (.str "AB") (.str "Addr 5") (.str "12345")
          (.str "Ivan Ivanov"))] [] = .ok custW ∧
    customerNew [.str witnessJson] [] = .ok custW ∧
    customerNew [.int 1, .str "AB", .str "Addr 5", .str "12345", .str "Ivan Ivanov"] [] =
      .ok custW ∧
    customerNew []
      (mkFieldDict (.int 1) (.str "AB") (.str "Addr 5") (.str "12345") (.str "Ivan Ivanov")) =
      .ok custW := by
  have h := C1_four_construction_shapes (.int 1) (.str "AB") (.str "Addr 5") (.str "12345")
    (.str "Ivan Ivanov") witnessJson rfl rfl rfl rfl rfl rfl
  exact ⟨h.1, h.2.1, h.2.2.1, h.2.2.2.1⟩

/-- C2: every customer observable through a constructor success satisfies
the spec validity predicate on all five fields, and every setter success
preserves it: no operation produces an object violating the invariant. -/
theorem C2_invariant :
    (∀ (args : List PyVal) (kwargs : List (String × PyVal)) (c : Customer),
      customerNew args kwargs = .ok c → validCustomerProp c) ∧
    (∀ (c : Customer) (v : PyVal) (c2 : Customer), validCustomerProp c →
      set_customer_id c v = .ok c2 → validCustomerProp c2) ∧
    (∀ (c : Customer) (v : PyVal) (c2 : Customer), validCustomerProp c →
      set_name c v = .ok c2 → validCustomerProp c2) ∧
    (∀ (c : Customer) (v : PyVal) (c2 : Customer), validCustomerProp c →
      set_address c v = .ok c2 → validCustomerProp c2) ∧
    (∀ (c : Customer) (v : PyVal) (c2 : Customer), validCustomerProp c →
      set_phone c v = .ok c2 → validCustomerProp c2) ∧
    (∀ (c : Customer) (v : PyVal) (c2 : Customer), validCustomerProp c →
      set_contact_person c v = .ok c2 → validCustomerProp c2) := by
  refine ⟨?_, ?_, ?_, ?_, ?_, ?_⟩
  · intro args kwargs c h
    obtain ⟨a, b, c', d, e, hv⟩ := customerNew_ok h
    obtain ⟨h1, h2, h3, h4, h5, hc⟩ := (validate_and_init_ok_iff _ _ _ _ _ _).1 hv
    subst hc
    exact validCustomerProp_of_validators h1 h2 h3 h4 h5
  · intro c v c2 hc h
    obtain ⟨hval, hc2⟩ := set_customer_id_ok h
    subst hc2
    exact ⟨cid_spec_of_ok hval, hc.2.1, hc.2.2.1, hc.2.2.2.1, hc.2.2.2.2⟩
  · intro c v c2 hc h
    obtain ⟨hval, hc2⟩ := set_name_ok h
    subst hc2
    obtain ⟨s, hs, hlen⟩ := strfield_spec_of_ok hval
    exact ⟨hc.1, ⟨s, hs, hlen⟩, hc.2.2.1, hc.2.2.2.1, hc.2.2.2.2⟩
  · intro c v c2 hc h
    obtain ⟨hval, hc2⟩ := set_address_ok h
    subst hc2
    obtain ⟨s, hs, hlen⟩ := strfield_spec_of_ok hval
    exact ⟨hc.1, hc.2.1, ⟨s, hs, hlen⟩, hc.2.2.2.1, hc.2.2.2.2⟩
  · intro c v c2 hc h
    obtain ⟨hval, hc2⟩ := set_phone_ok h
    subst hc2
    exact ⟨hc.1, hc.2.1, hc.2.2.1, phone_spec_of_ok hval, hc.2.2.2.2⟩
  · intro c v c2 hc h
    obtain ⟨hval, hc2⟩ := set_contact_person_ok h
    subst hc2
    exact ⟨hc.1, hc.2.1, hc.2.2.1, hc.2.2.2.1, contact_spec_of_ok hval⟩

/-- Witness for C2: a concrete construction satisfies the invariant, and a
concrete setter success preserves it. -/
theorem C2_invariant_witness :
    validCustomerProp custW ∧
    validCustomerProp
      (Customer.mk (.int 2) custW.name custW.address custW.phone custW.contact_person) := by
  have h0 : validCustomerProp custW :=
    C2_invariant.1 [.int 1, .str "AB", .str "Addr 5", .str "12345", .str "Ivan Ivanov"] []
      custW rfl
  exact ⟨h0, C2_invariant.2.1 custW (.int 2) _ h0 rfl⟩

/-- C3: for a valid customer, calling any of the five setters with a value
its validator rejects surfaces that error to the caller, and the observable
state after the call has all five fields (including the targeted one) equal
to their pre-call values: validation runs before any assignment. -/
theorem C3_setter_atomicity (c : Customer) (_hc : validCustomerB c = true)
    (v : PyVal) (e : Err) :
    (validate_customer_id v = .error e →
      set_customer_id c v = .error e ∧ postState (set_customer_id c v) c = c) ∧
    (validate_string_field v "customer name" 2 = .error e →
      set_name c v = .error e ∧ postState (set_name c v) c = c) ∧
    (validate_string_field v "address" 5 = .error e →
      set_address c v = .error e ∧ postState (set_address c v) c = c) ∧
    (validate_phone v = .error e →
      set_phone c v = .error e ∧ postState (set_phone c v) c = c) ∧
    (validate_contact_person v = .error e →
      set_contact_person c v = .error e ∧ postState (set_contact_person c v) c = c) := by
  refine ⟨fun h => ?_, fun h => ?_, fun h => ?_, fun h => ?_, fun h => ?_⟩
  · have hx : set_customer_id c v = .error e := by
      unfold set_customer_id; exact exc_bind_err _ h
    exact ⟨hx, by rw [hx]; rfl⟩
  · have hx : set_name c v = .error e := by
      unfold set_name; exact exc_bind_err _ h
    exact ⟨hx, by rw [hx]; rfl⟩
  · have hx : set_address c v = .error e := by
      unfold set_address; exact exc_bind_err _ h
    exact ⟨hx, by rw [hx]; rfl⟩
  · have hx : set_phone c v = .error e := by
      unfold set_phone; exact exc_bind_err _ h
    exact ⟨hx, by rw [hx]; rfl⟩
  · have hx : set_contact_person c v = .error e := by
      unfold set_contact_person; exact exc_bind_err _ h
    exact ⟨hx, by rw [hx]; rfl⟩

/-- Witness for C3: rejecting a too-short phone leaves the concrete valid
customer unchanged, and the error is surfaced. -/
theorem C3_setter_atomicity_witness :
    set_phone custW (.str "12") = .error .tooShortError ∧
    postState (set_phone custW (.str "12")) custW = custW :=
  (C3_setter_atomicity custW rfl (.str "12") .tooShortError).2.2.2.1 rfl

/-- C4 counterexample: a call mixing two extra positional arguments with a
full set of named parameters does not fail with InvalidArgumentError; it
succeeds and produces an object (the positional arguments are ignored and
the named parameters are used). -/
theorem C4_counterexample :
    customerNew [.int 7, .int 8]
        (mkFieldDict (.int 1) (.str "AB") (.str "Addr 5") (.str "12345")
          (.str "Ivan Ivanov")) =
      .ok custW := rfl

/-- C4 amended: the constructor accepts the four enumerated shapes; with no
named parameters, a positional count other than 1 and 5 fails with
InvalidArgumentError, as does a single positional argument that is neither
text nor mapping; but a call whose positional count is neither 1 nor 5 that
does carry named parameters is dispatched to the named-parameter path with
the extra positional arguments ignored, rather than failing. -/
theorem C4_amended (args : List PyVal) (kwargs : List (String × PyVal)) (v : PyVal) :
    (args.length ≠ 1 → args.length ≠ 5 → kwargs = [] →
      customerNew args kwargs = .error .invalidArgumentError) ∧
    (args.length ≠ 1 → args.length ≠ 5 → kwargs ≠ [] →
      customerNew args kwargs = init_from_kwargs kwargs) ∧
    ((∀ s, v ≠ .str s) → (∀ d, v ≠ .dict d) →
      customerNew [v] kwargs = .error .invalidArgumentError) := by
  refine ⟨fun h1 h5 hk => ?_, fun h1 h5 hk => ?_, fun hs hd => ?_⟩
  · subst hk
    rw [customerNew_other_arm args [] h1 h5]
    rfl
  · cases kwargs with
    | nil => exact absurd rfl hk
    | cons kv rest =>
      rw [customerNew_other_arm args (kv :: rest) h1 h5]
      rfl
  · cases v with
    | str s => exact absurd rfl (hs s)
    | dict d => exact absurd rfl (hd d)
    | int n => rfl
    | bool b => rfl
    | none => rfl
    | list l => rfl

/-- Witness for C4 amended: three positional arguments and no named
parameters fail with InvalidArgumentError; the same three positional
arguments with named parameters present take the named-parameter path; a
single unsupported argument fails with InvalidArgumentError. -/
theorem C4_amended_witness :
    customerNew [.int 7, .int 8, .int 9] [] = .error .invalidArgumentError ∧
    customerNew [.int 7, .int 8, .int 9] [("name", .str "AB")] =
      init_from_kwargs [("name", .str "AB")] ∧
    customerNew [.int 7] [] = .error .invalidArgumentError := by
  refine ⟨(C4_amended [.int 7, .int 8, .int 9] [] (.int 0)).1 (by decide) (by decide) rfl,
    (C4_amended [.int 7, .int 8, .int 9] [("name", .str "AB")] (.int 0)).2.1
      (by decide) (by decide) (by simp),
    (C4_amended [] [] (.int 7)).2.2 (fun s => by simp) (fun d => by simp)⟩

/-- C5 counterexample: for phone "()" the cleaned string is empty, hence
vacuously all-digits and shorter than 5 digits, so the claim prescribes
TooShortError; the code raises InvalidFormatError instead, because Python
`"".isdigit()` is false. -/
theorem C5_counterexample :
    cleanPhone "()" = "" ∧
    (cleanPhone "()").data.all Char.isDigit = true ∧
    (cleanPhone "()").length < 5 ∧
    validate_phone (.str "()") = .error .invalidFormatError ∧
    validate_phone (.str "()") ≠ .error .tooShortError := by
  refine ⟨rfl, rfl, by decide, rfl, ?_⟩
  rw [show validate_phone (.str "()") = .error .invalidFormatError from rfl]
  simp

/-- C5 amended: phone validation strips exactly space, parentheses and
hyphen; it fails with InvalidFormatError when the cleaned string is empty
or contains a non-digit; it fails with TooShortError when the cleaned
string is a nonempty digit string with fewer than 5 digits; on success the
original unstripped string is stored (by set_phone and by construction) and
the getter returns it unchanged; "12-34(56)" cleans to "123456" and
succeeds. -/
theorem C5_amended (s : String) (c c2 cust : Customer) (a nm ad cp : PyVal) :
    ((cleanPhone s).data = [] ∨ (cleanPhone s).data.all Char.isDigit = false →
      validate_phone (.str s) = .error .invalidFormatError) ∧
    ((cleanPhone s).data ≠ [] → (cleanPhone s).data.all Char.isDigit = true →
      (cleanPhone s).length < 5 → validate_phone (.str s) = .error .tooShortError) ∧
    ((cleanPhone s).data.all Char.isDigit = true → 5 ≤ (cleanPhone s).length →
      validate_phone (.str s) = .ok ()) ∧
    (set_phone c (.str s) = .ok c2 → get_phone c2 = .str s) ∧
    (validate_and_init a nm ad (.str s) cp = .ok cust → get_phone cust = .str s) ∧
    cleanPhone "12-34(56)" = "123456" ∧
    validate_phone (.str "12-34(56)") = .ok () := by
  have hlen : (cleanPhone s).length = (cleanPhone s).data.length := rfl
  refine ⟨fun h => ?_, fun hne hall hlt => ?_, fun hall h5 => ?_, fun h => ?_, fun h => ?_,
    rfl, rfl⟩
  · have h2 : pyIsDigitStr (cleanPhone s) = false := by
      unfold pyIsDigitStr
      rcases h with h | h
      · simp [h]
      · simp [h]
    unfold validate_phone
    simp [h2]
  · have hie : (cleanPhone s).data.isEmpty = false := by
      cases hd : (cleanPhone s).data with
      | nil => exact absurd hd hne
      | cons x xs => rfl
    have h2 : pyIsDigitStr (cleanPhone s) = true := by
      unfold pyIsDigitStr
      rw [hie, hall]
      rfl
    unfold validate_phone
    simp [h2, hlt]
  · have hne : (cleanPhone s).data ≠ [] := by
      intro hd
      rw [hlen, hd] at h5
      simp at h5
    have hie : (cleanPhone s).data.isEmpty = false := by
      cases hd : (cleanPhone s).data with
      | nil => exact absurd hd hne
      | cons x xs => rfl
    have h2 : pyIsDigitStr (cleanPhone s) = true := by
      unfold pyIsDigitStr
      rw [hie, hall]
      rfl
    unfold validate_phone
    simp [h2]
    omega
  · obtain ⟨_, hc2⟩ := set_phone_ok h
    subst hc2
    rfl
  · obtain ⟨_, _, _, _, _, hc⟩ := (validate_and_init_ok_iff _ _ _ _ _ _).1 h
    subst hc
    rfl

/-- Witness for C5 amended: "123" is all digits but too short; a concrete
set_phone success stores the original "12-34(56)" and the getter returns
it. -/
theorem C5_amended_witness :
    validate_phone (.str "123") = .error .tooShortError ∧
    get_phone (Customer.mk custW.customer_id custW.name custW.address (.str "12-34(56)")
      custW.contact_person) = .str "12-34(56)" := by
  constructor
  · exact (C5_amended "123" custW custW custW (.int 1) (.str "x") (.str "y") (.str "z")).2.1
      (by decide) (by decide) (by decide)
  · exact (C5_amended "12-34(56)" custW
      (Customer.mk custW.customer_id custW.name custW.address (.str "12-34(56)")
        custW.contact_person)
      custW (.int 1) (.str "x") (.str "y") (.str "z")).2.2.2.1 rfl

/-- C6: a mapping given to the constructor (directly or as JSON text that
encodes it) that lacks required keys fails with MissingFieldError carrying
exactly the required keys absent from the mapping — hence naming every
missing key — and no field-validation error is raised instead. -/
theorem C6_missing_fields (d : List (String × PyVal)) (s : String) (m : List String)
    (hm : m = requiredFields.filter (fun f => !hasKey d f)) (hne : m ≠ []) :
    customerNew [.dict d] [] = .error (.missingFieldError m) ∧
    (jsonLoads s = .ok (.dict d) → customerNew [.str s] [] = .error (.missingFieldError m)) ∧
    (∀ f, f ∈ requiredFields → hasKey d f = false → f ∈ m) := by
  subst hm
  have hid : init_from_dict (.dict d) =
      .error (.missingFieldError (requiredFields.filter (fun f => !hasKey d f))) := by
    unfold init_from_dict
    rw [missingOf_dict]
    have hie : (requiredFields.filter (fun f => !hasKey d f)).isEmpty = false := by
      cases hc : requiredFields.filter (fun f => !hasKey d f) with
      | nil => exact absurd hc hne
      | cons x xs => rfl
    simp [Bind.bind, Except.bind, hie]
  refine ⟨?_, fun hs => ?_, fun f hf hk => ?_⟩
  · rw [show customerNew [.dict d] [] = init_from_dict (.dict d) from rfl]
    exact hid
  · rw [customerNew_str_shape, hs]
    exact hid
  · exact List.mem_filter.2 ⟨hf, by rw [hk]; rfl⟩

/-- The witness mapping for C6: all required keys except "phone". -/
def dictMissingPhone : List (String × PyVal) :=
  [("customer_id", .int 1), ("name", .str "AB"), ("address", .str "Addr 5"),
   ("contact_person", .str "Ivan Ivanov")]

/-- Witness for C6: the mapping missing only "phone" fails with
MissingFieldError mentioning "phone", both as a dict and as JSON text. -/
theorem C6_missing_fields_witness :
    customerNew [.dict dictMissingPhone] [] = .error (.missingFieldError ["phone"]) ∧
    customerNew
        [.str "\x7b\"customer_id\": 1, \"name\": \"AB\", \"address\": \"Addr 5\", \"contact_person\": \"Ivan Ivanov\"\x7d"]
        [] = .error (.missingFieldError ["phone"]) ∧
    "phone" ∈ ["phone"] := by
  have h := C6_missing_fields dictMissingPhone
    "\x7b\"customer_id\": 1, \"name\": \"AB\", \"address\": \"Addr 5\", \"contact_person\": \"Ivan Ivanov\"\x7d"
    ["phone"] rfl (by simp)
  exact ⟨h.1, h.2.1 rfl, h.2.2 "phone" (by simp [requiredFields]) rfl⟩

/-- C7: customer-id validation, shared by all construction shapes and by
set_customer_id, fails with TypeError for every non-integer value and with
RangeError for every integer value at most 0; in particular a
non-positive id makes all four construction shapes fail with RangeError
and makes set_customer_id fail with the same errors. -/
theorem C7_customer_id_validation (v nm ad ph cp : PyVal) (z : Int) (s : String) (c : Customer)
    (hz : z ≤ 0)
    (hs : jsonLoads s = .ok (.dict (mkFieldDict (.int z) nm ad ph cp))) :
    (pyAsInt v = Option.none →
      validate_customer_id v = .error .typeError ∧
        set_customer_id c v = .error .typeError) ∧
    (∀ n : Int, pyAsInt v = some n → n ≤ 0 →
      validate_customer_id v = .error .rangeError ∧
        set_customer_id c v = .error .rangeError) ∧
    customerNew [.int z, nm, ad, ph, cp] [] = .error .rangeError ∧
    customerNew [.dict (mkFieldDict (.int z) nm ad ph cp)] [] = .error .rangeError ∧
    customerNew [.str s] [] = .error .rangeError ∧
    customerNew [] (mkFieldDict (.int z) nm ad ph cp) = .error .rangeError := by
  have hr : validate_customer_id (.int z) = .error .rangeError := by
    unfold validate_customer_id
    simp [pyAsInt, hz]
  have hva : validate_and_init (.int z) nm ad ph cp = .error .rangeError := by
    unfold validate_and_init
    exact exc_bind_err _ hr
  refine ⟨fun h => ?_, fun n hn hn0 => ?_, ?_, ?_, ?_, ?_⟩
  · have hv : validate_customer_id v = .error .typeError := by
      unfold validate_customer_id
      rw [h]
    exact ⟨hv, by unfold set_customer_id; exact exc_bind_err _ hv⟩
  · have hv : validate_customer_id v = .error .rangeError := by
      unfold validate_customer_id
      rw [hn]
      simp [hn0]
    exact ⟨hv, by unfold set_customer_id; exact exc_bind_err _ hv⟩
  · rw [customerNew_pos_shape]; exact hva
  · rw [customerNew_dict_shape]; exact hva
  · rw [customerNew_str_shape, hs]; exact hva
  · rw [customerNew_kwargs_shape]; exact hva

/-- Witness for C7 at id 0: all four shapes and the setter reject it. -/
theorem C7_customer_id_validation_witness :
    customerNew [.int 0, .str "AB", .str "Addr 5", .str "12345", .str "Ivan Ivanov"] [] =
      .error .rangeError ∧
    customerNew [.str "\x7b\"customer_id\": 0, \"name\": \"AB\", \"address\": \"Addr 5\", \"phone\": \"12345\", \"contact_person\": \"Ivan Ivanov\"\x7d"]
      [] = .error .rangeError ∧
    set_customer_id custW (.str "x") = .error .typeError := by
  have h := C7_customer_id_validation (.str "x") (.str "AB") (.str "Addr 5") (.str "12345")
    (.str "Ivan Ivanov") 0
    "\x7b\"customer_id\": 0, \"name\": \"AB\", \"address\": \"Addr 5\", \"phone\": \"12345\", \"contact_person\": \"Ivan Ivanov\"\x7d"
    custW (by decide) rfl
  exact ⟨h.2.2.1, h.2.2.2.2.1, (h.1 rfl).2⟩

/-- C8: contact-person validation first applies the generic string-field
check with minimum 2 (any error of that check is surfaced unchanged), then
fails with MalformedNameError exactly when the trimmed value splits into
fewer than 2 whitespace tokens; the same validator is what
set_contact_person and construction run; "Ivanov" fails with
MalformedNameError and "Ivan Ivanov" passes. -/
theorem C8_contact_person_validation (v : PyVal) (s : String) (e : Err) (c : Customer)
    (a nm ad ph : PyVal)
    (h1 : validate_customer_id a = .ok ())
    (h2 : validate_string_field nm "customer name" 2 = .ok ())
    (h3 : validate_string_field ad "address" 5 = .ok ())
    (h4 : validate_phone ph = .ok ()) :
    (validate_string_field v "contact person" 2 = .error e →
      validate_contact_person v = .error e) ∧
    (validate_string_field (.str s) "contact person" 2 = .ok () →
      validate_contact_person (.str s) =
        (if (pySplitWs (pyStrip s)).length < 2 then .error .malformedNameError
         else .ok ())) ∧
    (validate_contact_person v = .error e →
      set_contact_person c v = .error e ∧
        validate_and_init a nm ad ph v = .error e) ∧
    validate_contact_person (.str "Ivanov") = .error .malformedNameError ∧
    validate_contact_person (.str "Ivan Ivanov") = .ok () := by
  refine ⟨fun h => ?_, fun h => ?_, fun h => ?_, rfl, rfl⟩
  · unfold validate_contact_person
    exact exc_bind_err _ h
  · unfold validate_contact_person
    rw [exc_bind_congr _ h]
  · refine ⟨by unfold set_contact_person; exact exc_bind_err _ h, ?_⟩
    unfold validate_and_init
    rw [exc_bind_congr _ h1, exc_bind_congr _ h2, exc_bind_congr _ h3,
      exc_bind_congr _ h4]
    exact exc_bind_err _ h

/-- Witness for C8: the generic-check error passes through; "Ivanov" is
rejected by the setter and by construction with MalformedNameError. -/
theorem C8_contact_person_validation_witness :
    validate_contact_person (.str "  ") = .error .emptyValueError ∧
    set_contact_person custW (.str "Ivanov") = .error .malformedNameError ∧
    validate_and_init (.int 1) (.str "AB") (.str "Addr 5") (.str "12345") (.str "Ivanov") =
      .error .malformedNameError := by
  have h := C8_contact_person_validation (.str "  ") "Ivan Ivanov" .emptyValueError custW
    (.int 1) (.str "AB") (.str "Addr 5") (.str "12345") rfl rfl rfl rfl
  have h2 := C8_contact_person_validation (.str "Ivanov") "Ivan Ivanov" .malformedNameError
    custW (.int 1) (.str "AB") (.str "Addr 5") (.str "12345") rfl rfl rfl rfl
  exact ⟨h.1 rfl, (h2.2.2.1 rfl).1, (h2.2.2.1 rfl).2⟩

/-- C9: the textual representation of a constructed customer is exactly
the fixed template with the stored id, name, phone and contact person
substituted, and it does not depend on the address field. -/
theorem C9_str_template (n : Int) (nm ad ph cp : String) (c : Customer)
    (h : customerNew [.int n, .str nm, .str ad, .str ph, .str cp] [] = .ok c) :
    customerStr c =
      "Customer: ID=" ++ toString n ++ ", Name=\x27" ++ nm ++ "\x27, Phone=\x27" ++ ph ++
        "\x27, Contact=\x27" ++ cp ++ "\x27" ∧
    (∀ ad2 : PyVal,
      customerStr (Customer.mk c.customer_id c.name ad2 c.phone c.contact_person) =
        customerStr c) := by
  rw [customerNew_pos_shape] at h
  obtain ⟨_, _, _, _, _, hc⟩ := (validate_and_init_ok_iff _ _ _ _ _ _).1 h
  subst hc
  exact ⟨rfl, fun ad2 => rfl⟩

/-- Witness for C9 at the concrete valid customer. -/
theorem C9_str_template_witness :
    customerStr custW =
      "Customer: ID=1, Name=\x27AB\x27, Phone=\x2712345\x27, Contact=\x27Ivan Ivanov\x27" := by
  have h := C9_str_template 1 "AB" "Addr 5" "12345" "Ivan Ivanov" custW rfl
  rw [h.1]
  rfl

/-- C10: a JSON array given as the single textual argument does not fail
with FormatError: it reaches the missing-required-keys path and fails with
MissingFieldError listing all five keys; more generally, no textual input
whose JSON parse succeeds can produce FormatError. -/
theorem C10_json_array (s : String) (v : PyVal) (hs : jsonLoads s = .ok v) :
    customerNew [.str "[1, 2]"] [] =
      .error (.missingFieldError ["customer_id", "name", "address", "phone",
        "contact_person"]) ∧
    customerNew [.str s] [] ≠ .error .formatError := by
  refine ⟨rfl, ?_⟩
  rw [customerNew_str_shape, hs]
  exact init_from_dict_ne_format v

/-- Witness for C10 at the JSON array text itself. -/
theorem C10_json_array_witness :
    customerNew [.str "[1, 2]"] [] =
      .error (.missingFieldError ["customer_id", "name", "address", "phone",
        "contact_person"]) ∧
    customerNew [.str "[1, 2]"] [] ≠ .error .formatError :=
  ⟨(C10_json_array "[1, 2]" (.list [.int 1, .int 2]) rfl).1,
   (C10_json_array "[1, 2]" (.list [.int 1, .int 2]) rfl).2⟩
